import Mathlib

/-!
Verification development for the freehand image-annotation tool
(`frontend/src/hooks/useAnnotationStore.ts`, `frontend/src/components/CanvasStage.tsx`,
`frontend/src/App.tsx`).  The TypeScript code is shallowly embedded: numbers
become exact rationals (`ℚ`), objects become structures with value semantics,
the zustand store's `set` callbacks become pure state-transition functions,
and React callbacks that fire effects (`onAddShape`, `onSelect`,
`onShapeRejected`) return an explicit effect list.  Since all Lean values
are immutable, the source's `cloneDocument` (structuredClone / JSON
round-trip, a deep copy) is the identity on the embedded value, and "deep
equality" of documents is plain equality.
-/

/-- `types/annotations.ts` `NormalizedPoint`: a point with both coordinates
intended to lie in the unit interval. -/
structure NormalizedPoint where
  x : ℚ
  y : ℚ
deriving DecidableEq, Repr

/-- A point in image-pixel (or stage/screen) coordinate space.  The source
uses untyped `{x, y}` objects for these. -/
structure PixelPoint where
  x : ℚ
  y : ℚ
deriving DecidableEq, Repr

/-- `image_size {w, h}` of a document / an image. -/
structure ImageSize where
  w : ℚ
  h : ℚ
deriving DecidableEq, Repr

/-- `types/annotations.ts` `AnnotationFreehand` (the only current shape
variant, `AnnotationShape = AnnotationFreehand`).  The constant
discriminator `type: 'freehand'` is omitted, being statically fixed. -/
structure AnnotationShape where
  id : String
  points : List NormalizedPoint
  color : String
  label : Option String
  created_at : String
  updated_at : String
  closed : Bool
deriving DecidableEq, Repr

/-- `types/annotations.ts` `AnnotationLayer`.  The optional `locked?: boolean`
field is embedded as a `Bool`, `none`/`undefined` read as `false`, which is
how every read site (`!l.locked`, `layer.locked ? _ : _`) treats it. -/
structure AnnotationLayer where
  id : String
  name : String
  visible : Bool
  z : ℤ
  shapes : List AnnotationShape
  locked : Bool
deriving DecidableEq, Repr

/-- `types/annotations.ts` `AnnotationDocument`.  `meta` is free-form data the
store never inspects or alters; it is embedded as an association list. -/
structure AnnotationDocument where
  image_id : String
  image_size : ImageSize
  layers : List AnnotationLayer
  meta : List (String × String)
deriving DecidableEq, Repr

/-- `types/annotations.ts` `ImageSummary`. -/
structure ImageSummary where
  id : String
  name : String
  width : ℚ
  height : ℚ
deriving DecidableEq, Repr

/-- `useAnnotationStore.ts` `ToolMode`. -/
inductive ToolMode where
  | draw
  | select
  | pan
  | erase
deriving DecidableEq, Repr

/-- `useAnnotationStore.ts` `cloneDocument`: `structuredClone` (or a JSON
round-trip), i.e. a deep copy.  On immutable embedded values a deep copy is
the value itself. -/
def cloneDocument (doc : AnnotationDocument) : AnnotationDocument := doc

/-- The store slice of `useAnnotationStore.ts` `AnnotationState` that the
mutating operations, undo/redo and document loading read or write.  Fields
the claims never touch (`images`, `currentImageIndex`, `tool`,
`drawingColor`, `palette`) are omitted; no modeled operation depends on
them. -/
structure AnnotationState where
  document : Option AnnotationDocument
  selectedLayerId : Option String
  selectedShapeId : Option String
  isDirty : Bool
  history : List AnnotationDocument
  future : List AnnotationDocument
  canUndo : Bool
  canRedo : Bool
deriving DecidableEq, Repr

/-- The store's initial state (`document: null`, empty stacks, clean). -/
def initialState : AnnotationState :=
  { document := none
    selectedLayerId := none
    selectedShapeId := none
    isDirty := false
    history := []
    future := []
    canUndo := false
    canRedo := false }

/-- `setDocument`: loads a document, resets both history stacks, selects the
first layer and clears the dirty flag. -/
def setDocument (s : AnnotationState) (document : Option AnnotationDocument) :
    AnnotationState :=
  { s with
    document
    history := []
    future := []
    canUndo := false
    canRedo := false
    selectedLayerId := document.bind (fun doc => doc.layers.head?.map (·.id))
    selectedShapeId := none
    isDirty := false }

/-- `addLayer`: pushes a snapshot, appends the layer, re-sorts layers by `z`
ascending (JS `Array.prototype.sort` with comparator `a.z - b.z` is stable;
`List.mergeSort` with `≤` is the matching stable sort), selects the new
layer, sets dirty and clears the redo stack. -/
def addLayer (s : AnnotationState) (layer : AnnotationLayer) : AnnotationState :=
  match s.document with
  | none => s
  | some doc =>
    let history := s.history ++ [cloneDocument doc]
    let layers := (doc.layers ++ [layer]).mergeSort (fun a b => a.z ≤ b.z)
    { s with
      document := some { doc with layers }
      selectedLayerId := some layer.id
      isDirty := true
      history
      future := []
      canUndo := !history.isEmpty
      canRedo := false }

/-- `updateLayer`: pushes a snapshot, replaces the layer with the matching
id, sets dirty and clears the redo stack. -/
def updateLayer (s : AnnotationState) (layer : AnnotationLayer) : AnnotationState :=
  match s.document with
  | none => s
  | some doc =>
    let history := s.history ++ [cloneDocument doc]
    let layers := doc.layers.map (fun l => if l.id = layer.id then layer else l)
    { s with
      document := some { doc with layers }
      isDirty := true
      history
      future := []
      canUndo := !history.isEmpty
      canRedo := false }

/-- `removeLayer`: pushes a snapshot, filters out the layer with the given
id (with no guard against removing the document's last layer), selects the
first remaining layer, sets dirty and clears the redo stack. -/
def removeLayer (s : AnnotationState) (layerId : String) : AnnotationState :=
  match s.document with
  | none => s
  | some doc =>
    let history := s.history ++ [cloneDocument doc]
    let layers := doc.layers.filter (fun l => l.id ≠ layerId)
    { s with
      document := some { doc with layers }
      selectedLayerId := layers.head?.map (·.id)
      isDirty := true
      history
      future := []
      canUndo := !history.isEmpty
      canRedo := false }

/-- `addShape`: pushes a snapshot, appends the shape to the layer with the
matching id, selects the layer and shape, sets dirty and clears the redo
stack. -/
def addShape (s : AnnotationState) (layerId : String) (shape : AnnotationShape) :
    AnnotationState :=
  match s.document with
  | none => s
  | some doc =>
    let history := s.history ++ [cloneDocument doc]
    let layers := doc.layers.map (fun layer =>
      if layer.id = layerId then { layer with shapes := layer.shapes ++ [shape] }
      else layer)
    { s with
      document := some { doc with layers }
      selectedLayerId := some layerId
      selectedShapeId := some shape.id
      isDirty := true
      history
      future := []
      canUndo := !history.isEmpty
      canRedo := false }

/-- `updateShape`: pushes a snapshot, replaces (by id) the shape inside the
layer with the matching id, sets dirty and clears the redo stack. -/
def updateShape (s : AnnotationState) (layerId : String) (shape : AnnotationShape) :
    AnnotationState :=
  match s.document with
  | none => s
  | some doc =>
    let history := s.history ++ [cloneDocument doc]
    let layers := doc.layers.map (fun layer =>
      if layer.id = layerId then
        { layer with
          shapes := layer.shapes.map (fun sh => if sh.id = shape.id then shape else sh) }
      else layer)
    { s with
      document := some { doc with layers }
      isDirty := true
      history
      future := []
      canUndo := !history.isEmpty
      canRedo := false }

/-- `deleteShape`: pushes a snapshot, filters the shape out of the layer
with the matching id, clears the shape selection, sets dirty and clears the
redo stack. -/
def deleteShape (s : AnnotationState) (layerId shapeId : String) : AnnotationState :=
  match s.document with
  | none => s
  | some doc =>
    let history := s.history ++ [cloneDocument doc]
    let layers := doc.layers.map (fun layer =>
      if layer.id = layerId then
        { layer with shapes := layer.shapes.filter (fun sh => sh.id ≠ shapeId) }
      else layer)
    { s with
      document := some { doc with layers }
      selectedShapeId := none
      isDirty := true
      history
      future := []
      canUndo := !history.isEmpty
      canRedo := false }

/-- `undo`: if a document is loaded and the undo stack is non-empty, moves a
deep copy of the current document onto the redo stack and restores a deep
copy of the top undo entry. -/
def undo (s : AnnotationState) : AnnotationState :=
  match s.document with
  | none => s
  | some doc =>
    match s.history.getLast? with
    | none => s
    | some previous =>
      let history := s.history.dropLast
      let future := cloneDocument doc :: s.future
      { s with
        document := some (cloneDocument previous)
        history
        future
        canUndo := !history.isEmpty
        canRedo := true
        selectedLayerId := previous.layers.head?.map (·.id)
        selectedShapeId := none
        isDirty := true }

/-- `redo`: if a document is loaded and the redo stack is non-empty, moves a
deep copy of the current document onto the undo stack and restores a deep
copy of the head redo entry. -/
def redo (s : AnnotationState) : AnnotationState :=
  match s.document with
  | none => s
  | some doc =>
    match s.future with
    | [] => s
    | next :: rest =>
      let history := s.history ++ [cloneDocument doc]
      { s with
        document := some (cloneDocument next)
        history
        future := rest
        canUndo := !history.isEmpty
        canRedo := !rest.isEmpty
        selectedLayerId := next.layers.head?.map (·.id)
        selectedShapeId := none
        isDirty := true }

/-- The store's six mutating operations, as a syntax of commands so that
properties can quantify over arbitrary sequences of mutations. -/
inductive StoreOp where
  | addLayer (layer : AnnotationLayer)
  | updateLayer (layer : AnnotationLayer)
  | removeLayer (layerId : String)
  | addShape (layerId : String) (shape : AnnotationShape)
  | updateShape (layerId : String) (shape : AnnotationShape)
  | deleteShape (layerId : String) (shapeId : String)
deriving DecidableEq, Repr

/-- Interpretation of a mutating operation on the store state. -/
def applyOp (s : AnnotationState) : StoreOp → AnnotationState
  | .addLayer layer => addLayer s layer
  | .updateLayer layer => updateLayer s layer
  | .removeLayer layerId => removeLayer s layerId
  | .addShape layerId shape => addShape s layerId shape
  | .updateShape layerId shape => updateShape s layerId shape
  | .deleteShape layerId shapeId => deleteShape s layerId shapeId

/-- A sequence of mutating operations, applied left to right. -/
def applyOps (s : AnnotationState) (ops : List StoreOp) : AnnotationState :=
  ops.foldl applyOp s

/-! ## CanvasStage.tsx: geometry utilities, viewport clamp, stroke capture

The component-scoped functions live in a `CanvasStage` namespace (the
source scopes them inside the `CanvasStage` component); in particular the
source name `normalize` would otherwise collide with Mathlib's root-level
`normalize`. -/

namespace CanvasStage

/-- `CanvasStage.tsx` `MIN_POINT_DISTANCE` (decimation spacing, image px). -/
def MIN_POINT_DISTANCE : ℚ := 4

/-- `CanvasStage.tsx` `CLOSE_THRESHOLD` (closure distance, image px). -/
def CLOSE_THRESHOLD : ℚ := 32

/-- `CanvasStage.tsx` `MIN_POLYGON_AREA` (minimum normalized polygon area). -/
def MIN_POLYGON_AREA : ℚ := 2 / 10000

/-- Squared Euclidean distance.  The source compares `Math.hypot(dx, dy)`
(always non-negative) against a non-negative threshold `t`; this is encoded
exactly over `ℚ` by comparing `distSq` against `t ^ 2`. -/
def distSq (a b : PixelPoint) : ℚ :=
  (b.x - a.x) ^ 2 + (b.y - a.y) ^ 2

/-- `CanvasStage.tsx` `normalize`: divides by image width/height and clamps
each coordinate to `[0, 1]` (`Math.max(0, Math.min(1, _))`). -/
def normalize (imageSize : ImageSize) (point : PixelPoint) : NormalizedPoint :=
  { x := max 0 (min 1 (point.x / imageSize.w))
    y := max 0 (min 1 (point.y / imageSize.h)) }

/-- `CanvasStage.tsx` `denormalize`: multiplies by image width/height. -/
def denormalize (imageSize : ImageSize) (point : NormalizedPoint) : PixelPoint :=
  { x := point.x * imageSize.w
    y := point.y * imageSize.h }

/-- `CanvasStage.tsx` `clampToImage`: clamps a point to `[0, w] × [0, h]`. -/
def clampToImage (imageSize : ImageSize) (point : PixelPoint) : PixelPoint :=
  { x := max 0 (min imageSize.w point.x)
    y := max 0 (min imageSize.h point.y) }

/-- `CanvasStage.tsx` `polygonArea`: shoelace formula over the point list
with wrap-around indexing, absolute value halved; `0` for fewer than three
points. -/
def polygonArea (points : List NormalizedPoint) : ℚ :=
  if points.length < 3 then 0
  else
    let n := points.length
    let area := ((List.range n).map (fun i =>
      let current := points.getD i ⟨0, 0⟩
      let next := points.getD ((i + 1) % n) ⟨0, 0⟩
      current.x * next.y - next.x * current.y)).sum
    |area| / 2

/-- `CanvasStage.tsx` `clampStagePosition`: the viewport translation clamp.
`containerW`/`containerH` equal to `0` reproduce the falsy
(`!containerSize.width || !containerSize.height`) early return. -/
def clampStagePosition (containerW containerH : ℚ) (imageSize : ImageSize)
    (scale : ℚ) (pos : PixelPoint) : PixelPoint :=
  if containerW = 0 ∨ containerH = 0 then pos
  else
    let scaledWidth := imageSize.w * scale
    let scaledHeight := imageSize.h * scale
    let availableX := containerW - scaledWidth
    let availableY := containerH - scaledHeight
    { x := if availableX ≥ 0 then availableX / 2 else min 0 (max availableX pos.x)
      y := if availableY ≥ 0 then availableY / 2 else min 0 (max availableY pos.y) }

/-- The `CanvasStage` component state touched by the pointer handlers:
the draft stroke path (image-space points), the gesture-pan flag, and the
viewport (`stagePosition`, `stageScale`) that `toImageCoords` reads. -/
structure CanvasState where
  draftPath : Option (List PixelPoint)
  isGesturePan : Bool
  stagePosition : PixelPoint
  stageScale : ℚ
deriving DecidableEq, Repr

/-- Effects a pointer handler fires through the component's callbacks:
`onAddShape`, `onSelect`, `onShapeRejected`. -/
inductive CanvasEffect where
  | addShapeFx (layerId : String) (shape : AnnotationShape)
  | selectFx (layerId : Option String) (shapeId : Option String)
  | shapeRejectedFx (reason : String)
deriving DecidableEq, Repr

/-- `CanvasStage.tsx` rejection message for a stroke whose endpoints are not
closed. -/
def notClosedReason : String := "始点と終点が閉じていないため図形を作成できませんでした"

/-- `CanvasStage.tsx` rejection message for a stroke enclosing too small an
area. -/
def areaTooSmallReason : String := "囲まれた面積が小さすぎるため無効化しました"

/-- `CanvasStage.tsx` rejection message for drawing on a locked layer. -/
def lockedLayerReason : String := "ロックされたレイヤーには描画できません"

/-- `CanvasStage.tsx` `toImageCoords`: converts a stage/screen point to
image coordinates using the current translation and scale. -/
def toImageCoords (st : CanvasState) (stagePoint : PixelPoint) : PixelPoint :=
  { x := (stagePoint.x - st.stagePosition.x) / st.stageScale
    y := (stagePoint.y - st.stagePosition.y) / st.stageScale }

/-- `CanvasStage.tsx` `getActiveLayer`: resolves the layer to draw into from
`activeLayerId ?? selectedLayerId ?? l.id`, falling back to the first
layer. -/
def getActiveLayer (layers : List AnnotationLayer)
    (activeLayerId selectedLayerId : Option String) : Option AnnotationLayer :=
  match layers with
  | [] => none
  | _ =>
    match layers.find? (fun l =>
        l.id = ((activeLayerId.orElse (fun _ => selectedLayerId)).getD l.id)) with
    | some layer => some layer
    | none => layers.head?

/-- `CanvasStage.tsx` `handlePointerDown`.  Inputs mirror what the handler
reads from the event and the component props: the event's `pointerType` and
`touches` list length (`none` when the event has no `touches`), the stage
pointer position (`none` when `getPointerPosition()` is null), whether the
event target is the stage itself, the active tool and the layer props. -/
def handlePointerDown (pointerType : String) (touches : Option ℕ)
    (pointer : Option PixelPoint) (targetIsStage : Bool) (tool : ToolMode)
    (imageSize : ImageSize) (layers : List AnnotationLayer)
    (activeLayerId selectedLayerId : Option String) (st : CanvasState) :
    CanvasState × List CanvasEffect :=
  if pointerType = "touch" ∧ 1 < touches.getD 0 then
    ({ st with isGesturePan := true }, [])
  else
    match pointer with
    | none => (st, [])
    | some pointer =>
      match tool with
      | .draw =>
        match getActiveLayer layers activeLayerId selectedLayerId with
        | none => (st, [])
        | some activeLayer =>
          if activeLayer.locked then
            (st, [.shapeRejectedFx lockedLayerReason])
          else
            let pos := clampToImage imageSize (toImageCoords st pointer)
            ({ st with draftPath := some [pos] },
             [.selectFx (some activeLayer.id) none])
      | .select =>
        if targetIsStage then (st, [.selectFx none none]) else (st, [])
      | _ => (st, [])

/-- `CanvasStage.tsx` `handlePointerMove`: while a draft exists, appends the
clamped image-space pointer position, decimating points closer than
`MIN_POINT_DISTANCE` to the last accumulated point
(`Math.hypot(..) < 4` becomes `distSq < 4 ^ 2`). -/
def handlePointerMove (pointer : Option PixelPoint) (imageSize : ImageSize)
    (st : CanvasState) : CanvasState :=
  match st.draftPath with
  | none => st
  | some points =>
    match pointer with
    | none => st
    | some pointer =>
      let pos := clampToImage imageSize (toImageCoords st pointer)
      let lastPoint := points.getLastD ⟨0, 0⟩
      if distSq lastPoint pos < MIN_POINT_DISTANCE ^ 2 then st
      else { st with draftPath := some (points ++ [pos]) }

/-- `CanvasStage.tsx` `finalizeDraft`.  `newId` stands for the generated
`ann-${Date.now()}` id and `nowIso` for `new Date().toISOString()`.  The
closure check `Math.hypot(last - first) > CLOSE_THRESHOLD` is encoded as
`distSq first last > CLOSE_THRESHOLD ^ 2`. -/
def finalizeDraft (imageSize : ImageSize) (layers : List AnnotationLayer)
    (activeLayerId selectedLayerId : Option String) (drawingColor : String)
    (newId nowIso : String) (st : CanvasState) :
    CanvasState × List CanvasEffect :=
  match st.draftPath with
  | none => (st, [])
  | some points =>
    match getActiveLayer layers activeLayerId selectedLayerId with
    | none => ({ st with draftPath := none }, [])
    | some layer =>
      if points.length < 3 then
        ({ st with draftPath := none }, [])
      else
        let first := points.headD ⟨0, 0⟩
        let last := points.getLastD ⟨0, 0⟩
        if distSq first last > CLOSE_THRESHOLD ^ 2 then
          ({ st with draftPath := none }, [.shapeRejectedFx notClosedReason])
        else
          let normalizedPoints := points.map (normalize imageSize)
          let area := polygonArea normalizedPoints
          if area < MIN_POLYGON_AREA then
            ({ st with draftPath := none }, [.shapeRejectedFx areaTooSmallReason])
          else
            let shape : AnnotationShape :=
              { id := newId
                points := normalizedPoints
                color := drawingColor
                label := none
                created_at := nowIso
                updated_at := nowIso
                closed := true }
            ({ st with draftPath := none },
             [.addShapeFx layer.id shape, .selectFx (some layer.id) (some shape.id)])

/-- `CanvasStage.tsx` `handlePointerUp`: clears the gesture-pan flag, then
finalizes the draft. -/
def handlePointerUp (imageSize : ImageSize) (layers : List AnnotationLayer)
    (activeLayerId selectedLayerId : Option String) (drawingColor : String)
    (newId nowIso : String) (st : CanvasState) :
    CanvasState × List CanvasEffect :=
  finalizeDraft imageSize layers activeLayerId selectedLayerId drawingColor
    newId nowIso { st with isGesturePan := false }

/-- `CanvasStage.tsx` `handlePointerCancel`: clears the gesture-pan flag and
discards the draft path, firing no callback. -/
def handlePointerCancel (st : CanvasState) : CanvasState × List CanvasEffect :=
  ({ st with isGesturePan := false, draftPath := none }, [])

end CanvasStage

/-! ## App.tsx: legacy-document upgrade -/

/-- `App.tsx` `FREEHAND_SAMPLES`. -/
def FREEHAND_SAMPLES : ℕ := 36

/-- `App.tsx` `clamp01`. -/
def clamp01 (value : ℚ) : ℚ := max 0 (min 1 value)

/-- JS `Number(v) || d` on a possibly-missing numeric field: a missing value
(`undefined`, `Number` of which is `NaN`) and the falsy number `0` both fall
back to the default `d`. -/
def jsNumberOr (v : Option ℚ) (d : ℚ) : ℚ :=
  match v with
  | none => d
  | some q => if q = 0 then d else q

/-- A persisted point as it arrives from disk: both coordinates may be
missing (the upgrade code reads them as `pt?.x`). -/
structure RawPoint where
  x : Option ℚ
  y : Option ℚ
deriving DecidableEq, Repr

/-- A persisted shape as it arrives from disk, duck-typed (`shape: any` in
the source): every field may be absent.  A current freehand shape carries
`type = some "freehand"` and a `points` array; a legacy circle carries
`type = some "circle"`, `center` and `radius`. -/
structure RawShape where
  type : Option String
  points : Option (List RawPoint)
  center : Option RawPoint
  radius : Option ℚ
  id : Option String
  color : Option String
  label : Option String
  created_at : Option String
  updated_at : Option String
  closed : Option Bool
deriving DecidableEq, Repr

/-- A persisted layer as it arrives from disk: `visible`, `z`, `locked` and
`shapes` may be absent (`upgradeDocument` fills the defaults). -/
structure RawLayer where
  id : String
  name : String
  visible : Option Bool
  z : Option ℤ
  locked : Option Bool
  shapes : Option (List RawShape)
deriving DecidableEq, Repr

/-- A persisted document as it arrives from disk; `image_size` may be
absent. -/
structure RawDocument where
  image_id : String
  image_size : Option ImageSize
  layers : List RawLayer
  meta : List (String × String)
deriving DecidableEq, Repr

/-- `App.tsx` `convertCircleToFreehand`, `const centerX = clamp01(Number(shape?.center?.x) || 0.5)`:
JS `|| 0.5` maps a missing (`NaN`) or zero coordinate to `0.5`. -/
def circleCenterX (shape : RawShape) : ℚ :=
  clamp01 (jsNumberOr (shape.center.bind (·.x)) (1 / 2))

/-- `const centerY = clamp01(Number(shape?.center?.y) || 0.5)`. -/
def circleCenterY (shape : RawShape) : ℚ :=
  clamp01 (jsNumberOr (shape.center.bind (·.y)) (1 / 2))

/-- `const radiusPx = radiusNorm * docSize.w` with
`radiusNorm = typeof shape?.radius === 'number' ? shape.radius : 0.05`. -/
def circleRadiusPx (shape : RawShape) (docSize : ImageSize) : ℚ :=
  shape.radius.getD (1 / 20) * docSize.w

/-- The `i`-th boundary sample of the converted circle: the image-space
point `(centerX·w + cos(angle)·radiusPx, centerY·h + sin(angle)·radiusPx)`
at `angle = 2π·i/36`, renormalized and clamped to `[0,1]`. -/
def circleSample (cosv sinv : ℕ → ℚ) (shape : RawShape) (docSize : ImageSize)
    (i : ℕ) : NormalizedPoint :=
  let px := circleCenterX shape * docSize.w + cosv i * circleRadiusPx shape docSize
  let py := circleCenterY shape * docSize.h + sinv i * circleRadiusPx shape docSize
  { x := clamp01 (px / docSize.w), y := clamp01 (py / docSize.h) }

/-- `App.tsx` `convertCircleToFreehand`.  The trigonometric samples
`Math.cos(angle)` / `Math.sin(angle)` at `angle = 2π·i/36` are supplied as
abstract functions `cosv sinv : ℕ → ℚ` of the sample index `i` (Lean's `ℚ`
has no transcendental functions); `gen` stands for the impure
`generateShapeId()` result and `nowIso` for `new Date().toISOString()`. -/
def convertCircleToFreehand (cosv sinv : ℕ → ℚ) (gen nowIso : String)
    (shape : RawShape) (docSize : ImageSize) : AnnotationShape :=
  let points := (List.range FREEHAND_SAMPLES).map (circleSample cosv sinv shape docSize)
  let createdAt := shape.created_at.getD nowIso
  { id := shape.id.getD gen
    points
    color := shape.color.getD "#FF3B30"
    label := shape.label
    created_at := createdAt
    updated_at := shape.updated_at.getD createdAt
    closed := true }

/-- The sanitation step of `App.tsx` `ensureFreehandShape`: map each raw
point through `clamp01(Number(_) || 0)` and keep a point only when it
differs from its predecessor *in the original (mapped) array* — the
source's filter compares against `arr[idx - 1]`, not the previously kept
point. -/
def sanitizePoints (pts : List RawPoint) : List NormalizedPoint :=
  let mapped := pts.map (fun pt =>
    ({ x := clamp01 (jsNumberOr pt.x 0), y := clamp01 (jsNumberOr pt.y 0) } :
      NormalizedPoint))
  match mapped with
  | [] => []
  | p :: rest => p :: sanitizeAux p rest
where
  /-- Drops each element equal to its predecessor in the original list. -/
  sanitizeAux : NormalizedPoint → List NormalizedPoint → List NormalizedPoint
    | _, [] => []
    | prev, p :: rest =>
      if p.x = prev.x ∧ p.y = prev.y then sanitizeAux p rest
      else p :: sanitizeAux p rest

/-- `App.tsx` `ensureFreehandShape`: a shape tagged `freehand` with a
`points` array whose sanitized form still has at least **2** points is kept
as a freehand shape; anything else is routed through
`convertCircleToFreehand`.  `closed: shape?.closed !== false` keeps `closed`
unless it is literally `false`. -/
def ensureFreehandShape (cosv sinv : ℕ → ℚ) (gen nowIso : String)
    (shape : RawShape) (docSize : ImageSize) : AnnotationShape :=
  match shape.type, shape.points with
  | some t, some pts =>
    if t = "freehand" then
      let sanitized := sanitizePoints pts
      if 2 ≤ sanitized.length then
        let createdAt := shape.created_at.getD nowIso
        { id := shape.id.getD gen
          points := sanitized
          color := shape.color.getD "#FF3B30"
          label := shape.label
          created_at := createdAt
          updated_at := shape.updated_at.getD createdAt
          closed := shape.closed ≠ some false }
      else convertCircleToFreehand cosv sinv gen nowIso shape docSize
    else convertCircleToFreehand cosv sinv gen nowIso shape docSize
  | _, _ => convertCircleToFreehand cosv sinv gen nowIso shape docSize

/-- `App.tsx` `upgradeDocument`: fixes up `image_size` (falling back to the
image's pixel dimensions), defaults `visible` to `true` and `z` to
`index + 1`, and maps every persisted shape through
`ensureFreehandShape`. -/
def upgradeDocument (cosv sinv : ℕ → ℚ) (gen nowIso : String)
    (image : ImageSummary) (doc : RawDocument) : AnnotationDocument :=
  let size := doc.image_size.getD { w := image.width, h := image.height }
  let layers := doc.layers.enum.map (fun (p : ℕ × RawLayer) =>
    let index := p.1
    let layer := p.2
    ({ id := layer.id
       name := layer.name
       visible := layer.visible.getD true
       z := layer.z.getD (index + 1)
       locked := layer.locked.getD false
       shapes := (layer.shapes.getD []).map
         (fun shape => ensureFreehandShape cosv sinv gen nowIso shape size) } :
      AnnotationLayer))
  { image_id := doc.image_id, image_size := size, layers, meta := doc.meta }

/-! ## Spec-side model and concrete fixtures -/

namespace CanvasStage

/-- Modelled from the spec's words for the pointer-up validation (claim C6 /
§4.3): a path with fewer than 3 points at release is silently discarded;
otherwise the closure gate is evaluated first (first-to-last distance above
the 32-px closure threshold rejects with the "not closed" reason,
regardless of the interior of the path), then the area gate (normalized
polygon area below 0.0002 rejects with the "area too small" reason);
passing both commits exactly one shape, carrying the normalized points and
`closed = true`, into the active layer.  To be compared against
`finalizeDraft`, the embedding of the source. -/
def finalizeSpec (imageSize : ImageSize) (layerId : String)
    (drawingColor newId nowIso : String) (st : CanvasState)
    (points : List PixelPoint) : CanvasState × List CanvasEffect :=
  if points.length < 3 then
    ({ st with draftPath := none }, [])
  else if distSq (points.headD ⟨0, 0⟩) (points.getLastD ⟨0, 0⟩) > CLOSE_THRESHOLD ^ 2 then
    ({ st with draftPath := none }, [.shapeRejectedFx notClosedReason])
  else if polygonArea (points.map (normalize imageSize)) < MIN_POLYGON_AREA then
    ({ st with draftPath := none }, [.shapeRejectedFx areaTooSmallReason])
  else
    let shape : AnnotationShape :=
      { id := newId
        points := points.map (normalize imageSize)
        color := drawingColor
        label := none
        created_at := nowIso
        updated_at := nowIso
        closed := true }
    ({ st with draftPath := none },
     [.addShapeFx layerId shape, .selectFx (some layerId) (some shape.id)])

end CanvasStage

/-- The frame of a store mutation that matched nothing: the document is
returned intact, yet a snapshot of it was appended to the undo stack, the
redo stack was cleared and the dirty flag set. -/
def pushOnlyFrame (t s : AnnotationState) (d : AnnotationDocument) : Prop :=
  t.document = some d ∧ t.history = s.history ++ [d] ∧ t.future = [] ∧
    t.isDirty = true

/-- Concrete fixture: a committed triangle shape. -/
def exShape : AnnotationShape :=
  { id := "s1"
    points := [⟨0, 0⟩, ⟨1, 0⟩, ⟨1, 1⟩]
    color := "#FF3B30"
    label := none
    created_at := "2024-01-01T00:00:00.000Z"
    updated_at := "2024-01-01T00:00:00.000Z"
    closed := true }

/-- Concrete fixture: a single unlocked layer holding `exShape`. -/
def exLayer : AnnotationLayer :=
  { id := "L1"
    name := "default"
    visible := true
    z := 1
    shapes := [exShape]
    locked := false }

/-- Concrete fixture: a document whose layers collection contains exactly
one layer. -/
def exDoc : AnnotationDocument :=
  { image_id := "img-1"
    image_size := { w := 100, h := 100 }
    layers := [exLayer]
    meta := [] }

/-- Concrete fixture: a store state with `exDoc` loaded and a non-empty
redo stack. -/
def exState : AnnotationState :=
  { initialState with document := some exDoc, future := [exDoc], canRedo := true }

/-- Concrete fixture: a canvas whose capture is active with a single
accumulated point, at the identity viewport. -/
def exCanvasDrafting : CanvasStage.CanvasState :=
  { draftPath := some [⟨0, 0⟩]
    isGesturePan := false
    stagePosition := ⟨0, 0⟩
    stageScale := 1 }

/-- Concrete fixture: a canvas with an accumulated three-point path that
passes both commit gates for a 100×100 image
(closure distance² = 200 ≤ 1024, normalized area = 1/20 ≥ 1/5000). -/
def exCanvasClosable : CanvasStage.CanvasState :=
  { draftPath := some [⟨0, 0⟩, ⟨100, 0⟩, ⟨10, 10⟩]
    isGesturePan := false
    stagePosition := ⟨0, 0⟩
    stageScale := 1 }

/-- The shape `finalizeDraft` commits from `exCanvasClosable` on a 100×100
image with color `"#FF3B30"`, id `"ann-1"`, timestamp `"t1"`. -/
def exCommittedShape : AnnotationShape :=
  { id := "ann-1"
    points := [⟨0, 0⟩, ⟨1, 0⟩, ⟨1/10, 1/10⟩]
    color := "#FF3B30"
    label := none
    created_at := "t1"
    updated_at := "t1"
    closed := true }

/-- Concrete fixture: an image summary for a 100×100 image. -/
def exImage : ImageSummary :=
  { id := "img-1", name := "img-1.png", width := 100, height := 100 }

/-- Concrete fixture: a persisted freehand shape with only two (distinct)
points. -/
def rawTwoPointShape : RawShape :=
  { type := some "freehand"
    points := some [{ x := some (1/4), y := some (1/4) }, { x := some (3/4), y := some (3/4) }]
    center := none
    radius := none
    id := some "legacy-1"
    color := some "#007AFF"
    label := none
    created_at := some "2023-01-01T00:00:00.000Z"
    updated_at := some "2023-01-01T00:00:00.000Z"
    closed := some true }

/-- Concrete fixture: a persisted document containing only
`rawTwoPointShape`. -/
def rawTwoPointDoc : RawDocument :=
  { image_id := "img-1"
    image_size := some { w := 100, h := 100 }
    layers := [{ id := "L1", name := "default", visible := some true,
                 z := some 1, locked := none, shapes := some [rawTwoPointShape] }]
    meta := [] }

/-- Concrete fixture: a persisted legacy circle shape. -/
def rawCircleShape : RawShape :=
  { type := some "circle"
    points := none
    center := some { x := some (1/2), y := some (1/2) }
    radius := some (1/10)
    id := some "circle-1"
    color := some "#34C759"
    label := some "lesion"
    created_at := some "2023-01-01T00:00:00.000Z"
    updated_at := some "2023-06-01T00:00:00.000Z"
    closed := none }

/-- Concrete fixture: a layer whose id matches nothing in `exDoc`. -/
def ghostLayer : AnnotationLayer :=
  { id := "LX"
    name := "ghost"
    visible := true
    z := 9
    shapes := []
    locked := false }

/-- Concrete fixture: a shape whose id matches nothing in `exDoc`. -/
def ghostShape : AnnotationShape :=
  { id := "sX"
    points := [⟨0, 0⟩, ⟨1, 0⟩, ⟨0, 1⟩]
    color := "#000000"
    label := none
    created_at := "t9"
    updated_at := "t9"
    closed := true }

/-! ## Helper lemmas -/

/-- A `List.map` whose function fixes every member of the list is the
identity on that list. -/
theorem list_map_id_of_mem {α : Type} (l : List α) (f : α → α)
    (h : ∀ a ∈ l, f a = a) : l.map f = l := by
  induction l with
  | nil => rfl
  | cons a rest ih =>
    simp only [List.map_cons, List.cons.injEq]
    exact ⟨h a (List.mem_cons_self a rest), ih (fun b hb => h b (List.mem_cons_of_mem a hb))⟩

/-- `clamp01` lands in the unit interval. -/
theorem clamp01_mem_unit (q : ℚ) : 0 ≤ clamp01 q ∧ clamp01 q ≤ 1 := by
  unfold clamp01
  constructor
  · exact le_max_left 0 _
  · exact max_le (by norm_num) (min_le_left 1 q)

/-- Every mutating store operation leaves an empty redo stack empty. -/
theorem applyOp_future_nil (s : AnnotationState) (op : StoreOp)
    (h : s.future = []) : (applyOp s op).future = [] := by
  cases hdoc : s.document <;>
    cases op <;>
      simp [applyOp, addLayer, updateLayer, removeLayer, addShape, updateShape,
        deleteShape, hdoc, h]

/-- A sequence of mutating store operations leaves an empty redo stack
empty. -/
theorem applyOps_future_nil (ops : List StoreOp) (s : AnnotationState)
    (h : s.future = []) : (applyOps s ops).future = [] := by
  induction ops generalizing s with
  | nil => simpa [applyOps] using h
  | cons op rest ih =>
    have : applyOps s (op :: rest) = applyOps (applyOp s op) rest := rfl
    rw [this]
    exact ih _ (applyOp_future_nil s op h)

/-! ## Claims -/

/-- C1: the claim says that calling `removeLayer` with the id of a
document's only layer is refused (no-op, document unchanged, no history
entry).  The code has no such guard: evaluated at a single-layer document,
`removeLayer` deletes the layer (leaving an empty layers collection),
pushes a history snapshot onto the undo stack and sets the dirty flag.
(The last-layer refusal exists only in the UI, where `LayerPanel.tsx`
disables the delete button when `layers.length <= 1`.) -/
theorem C1_removeLayer_last_layer_bug :
    (removeLayer exState "L1").document = some { exDoc with layers := [] } ∧
    (removeLayer exState "L1").history = [exDoc] ∧
    (removeLayer exState "L1").isDirty = true := by
  refine ⟨?_, ?_, ?_⟩ <;> rfl

/-- C2 counterexample: loading a persisted document that contains a
freehand shape with only two (distinct) points puts a shape with
`points.length = 2 < 3` (hence also of polygon area `0`, below the
minimum-area threshold) into the store: `ensureFreehandShape` keeps any
sanitized freehand path with at least **2** points and applies no area
gate, and `setDocument` loads the upgraded document as-is.  This refutes
the claim that every shape reaching the store has at least 3 points and at
least the minimum normalized area. -/
theorem C2_counterexample :
    (setDocument initialState (some (upgradeDocument (fun _ => 0) (fun _ => 0)
        "gen" "now" exImage rawTwoPointDoc))).document
      = some (upgradeDocument (fun _ => 0) (fun _ => 0) "gen" "now" exImage
          rawTwoPointDoc) ∧
    (upgradeDocument (fun _ => 0) (fun _ => 0) "gen" "now" exImage
        rawTwoPointDoc).layers.map
        (fun l => l.shapes.map (fun sh => sh.points.length)) = [[2]] := by
  refine ⟨rfl, ?_⟩
  norm_num [upgradeDocument, rawTwoPointDoc, rawTwoPointShape, exImage,
    ensureFreehandShape, sanitizePoints, sanitizePoints.sanitizeAux,
    jsNumberOr, clamp01, List.enum, min_def, max_def]

/-- C5: after any of the six mutating store operations completes on a
loaded document, the redo stack is empty — for every prior store state,
including states with a non-empty redo stack. -/
theorem C5_mutation_clears_redo (s : AnnotationState) (d : AnnotationDocument)
    (hdoc : s.document = some d) (op : StoreOp) :
    (applyOp s op).future = [] := by
  cases op <;>
    simp [applyOp, addLayer, updateLayer, removeLayer, addShape, updateShape,
      deleteShape, hdoc]

/-- Witness for C5 at a concrete state whose redo stack is non-empty. -/
theorem C5_witness :
    exState.document = some exDoc ∧ exState.future ≠ [] ∧
    (applyOp exState (.deleteShape "L1" "s1")).future = [] :=
  ⟨rfl, by decide, C5_mutation_clears_redo exState exDoc rfl (.deleteShape "L1" "s1")⟩

/-- C9: for a point with both components in `[0, 1]` and an image size with
positive width and height, `normalize (denormalize p size) size = p`
exactly, over exact rational arithmetic. -/
theorem C9_normalize_roundtrip (p : NormalizedPoint) (size : ImageSize)
    (hx0 : 0 ≤ p.x) (hx1 : p.x ≤ 1) (hy0 : 0 ≤ p.y) (hy1 : p.y ≤ 1)
    (hw : 0 < size.w) (hh : 0 < size.h) :
    CanvasStage.normalize size (CanvasStage.denormalize size p) = p := by
  cases p with
  | mk px py =>
    simp only [CanvasStage.normalize, CanvasStage.denormalize,
      NormalizedPoint.mk.injEq]
    constructor
    · rw [mul_div_cancel_right₀ px (ne_of_gt hw), min_eq_right hx1,
        max_eq_right hx0]
    · rw [mul_div_cancel_right₀ py (ne_of_gt hh), min_eq_right hy1,
        max_eq_right hy0]

/-- Witness for C9 at `p = (1/4, 2/3)`, `size = 100 × 100`. -/
theorem C9_witness :
    (0 : ℚ) ≤ 1/4 ∧ (1/4 : ℚ) ≤ 1 ∧ (0 : ℚ) ≤ 2/3 ∧ (2/3 : ℚ) ≤ 1 ∧
    (0 : ℚ) < 100 ∧
    CanvasStage.normalize ⟨100, 100⟩
      (CanvasStage.denormalize ⟨100, 100⟩ ⟨1/4, 2/3⟩) = ⟨1/4, 2/3⟩ :=
  ⟨by norm_num, by norm_num, by norm_num, by norm_num, by norm_num,
   C9_normalize_roundtrip ⟨1/4, 2/3⟩ ⟨100, 100⟩ (by norm_num) (by norm_num)
     (by norm_num) (by norm_num) (by norm_num) (by norm_num)⟩

/-- C3 counterexample: with a capture active (`exCanvasDrafting` holds a
one-point draft), a second simultaneous touch point arriving mid-gesture
does **not** discard the accumulated path: `handlePointerDown` only sets
the gesture-pan flag and returns, leaving `draftPath` intact — and the same
gesture can then go on to commit a shape at pointer-up, as the second
conjunct shows concretely.  This refutes the claim that a second
simultaneous touch aborts the capture and discards the path. -/
theorem C3_counterexample :
    (CanvasStage.handlePointerDown "touch" (some 2) (some ⟨5, 5⟩) false .draw
        ⟨100, 100⟩ [exLayer] none none exCanvasDrafting).1.draftPath
      = some [⟨0, 0⟩] ∧
    (CanvasStage.handlePointerUp ⟨100, 100⟩ [exLayer] none none "#FF3B30"
        "ann-1" "t1"
        (CanvasStage.handlePointerMove (some ⟨10, 10⟩) ⟨100, 100⟩
          (CanvasStage.handlePointerMove (some ⟨100, 0⟩) ⟨100, 100⟩
            (CanvasStage.handlePointerDown "touch" (some 2) (some ⟨5, 5⟩)
              false .draw ⟨100, 100⟩ [exLayer] none none
              exCanvasDrafting).1))).2
      = [.addShapeFx "L1" exCommittedShape,
         .selectFx (some "L1") (some "ann-1")] := by
  constructor
  · rfl
  · norm_num [CanvasStage.handlePointerDown, CanvasStage.handlePointerMove,
      CanvasStage.handlePointerUp, CanvasStage.finalizeDraft,
      CanvasStage.getActiveLayer, CanvasStage.toImageCoords,
      CanvasStage.clampToImage, CanvasStage.distSq, CanvasStage.polygonArea,
      CanvasStage.normalize, CanvasStage.MIN_POINT_DISTANCE,
      CanvasStage.CLOSE_THRESHOLD, CanvasStage.MIN_POLYGON_AREA,
      exCanvasDrafting, exLayer, exShape, exCommittedShape,
      List.range_succ, min_def, max_def, abs_eq_max_neg]

/-- C3 amended: a pointer-cancel aborts the capture without committing —
the accumulated path is discarded and no callback fires; a second
simultaneous touch point arriving mid-gesture merely switches on gesture
panning without starting a new capture, but the accumulated draft path is
retained (it is not discarded, and may still be committed at
pointer-up). -/
theorem C3_amended_cancel_and_second_touch
    (st : CanvasStage.CanvasState) (touches : ℕ) (pointer : Option PixelPoint)
    (targetIsStage : Bool) (tool : ToolMode) (imageSize : ImageSize)
    (layers : List AnnotationLayer) (aid sid : Option String)
    (htouch : 1 < touches) :
    CanvasStage.handlePointerCancel st
      = ({ st with isGesturePan := false, draftPath := none }, []) ∧
    CanvasStage.handlePointerDown "touch" (some touches) pointer targetIsStage
        tool imageSize layers aid sid st
      = ({ st with isGesturePan := true }, []) := by
  constructor
  · rfl
  · simp [CanvasStage.handlePointerDown, htouch]

/-- Witness for C3's amended theorem with two simultaneous touches on an
active one-point capture. -/
theorem C3_witness :
    1 < 2 ∧
    (CanvasStage.handlePointerCancel exCanvasDrafting
      = ({ exCanvasDrafting with isGesturePan := false, draftPath := none }, []) ∧
    CanvasStage.handlePointerDown "touch" (some 2) none false .draw
        ⟨100, 100⟩ [exLayer] none none exCanvasDrafting
      = ({ exCanvasDrafting with isGesturePan := true }, [])) :=
  ⟨by norm_num,
   C3_amended_cancel_and_second_touch exCanvasDrafting 2 none false .draw
     ⟨100, 100⟩ [exLayer] none none (by norm_num)⟩

/-- Undo followed by redo preserves the current document whenever the redo
stack is empty beforehand. -/
theorem undo_redo_of_future_nil (s : AnnotationState) (h : s.future = []) :
    (redo (undo s)).document = s.document := by
  cases hdoc : s.document with
  | none => simp [undo, redo, hdoc]
  | some doc =>
    rcases List.eq_nil_or_concat s.history with hh | ⟨l, prev, hh⟩
    · simp [undo, redo, hdoc, hh, h]
    · simp [undo, redo, hdoc, hh, h, List.getLast?_concat,
        List.dropLast_concat, cloneDocument]

/-- C4: for any loaded document and any sequence of prior mutating store
operations, `undo()` followed by `redo()` yields a document equal (deep
equality, which on the embedded immutable values is equality) to the
document that was current immediately before the `undo()` call. -/
theorem C4_undo_redo_roundtrip (s0 : AnnotationState) (d : AnnotationDocument)
    (ops : List StoreOp) :
    (redo (undo (applyOps (setDocument s0 (some d)) ops))).document
      = (applyOps (setDocument s0 (some d)) ops).document :=
  undo_redo_of_future_nil _
    (applyOps_future_nil ops _ (by simp [setDocument]))

/-- C6: with a capture active and an active layer resolved, `finalizeDraft`
behaves exactly as the spec's pointer-up validation describes
(`finalizeSpec`): fewer than 3 points is silently discarded with no reason
surfaced; otherwise the closure gate runs first (first/last distance above
the 32-px threshold rejects with the "not closed" reason, whatever the
interior of the path), then the area gate (normalized area below 0.0002
rejects with the "area too small" reason); passing both commits exactly one
shape carrying the normalized points and `closed = true` into the active
layer. -/
theorem C6_finalize_gates (imageSize : ImageSize)
    (layers : List AnnotationLayer) (aid sid : Option String)
    (color newId nowIso : String) (st : CanvasStage.CanvasState)
    (pts : List PixelPoint) (layer : AnnotationLayer)
    (hdraft : st.draftPath = some pts)
    (hlayer : CanvasStage.getActiveLayer layers aid sid = some layer) :
    CanvasStage.finalizeDraft imageSize layers aid sid color newId nowIso st
      = CanvasStage.finalizeSpec imageSize layer.id color newId nowIso st pts := by
  simp [CanvasStage.finalizeDraft, CanvasStage.finalizeSpec, hdraft, hlayer]

/-- Witness for C6 at a concrete three-point committing capture. -/
theorem C6_witness :
    exCanvasClosable.draftPath = some [⟨0, 0⟩, ⟨100, 0⟩, ⟨10, 10⟩] ∧
    CanvasStage.getActiveLayer [exLayer] none none = some exLayer ∧
    CanvasStage.finalizeDraft ⟨100, 100⟩ [exLayer] none none "#FF3B30"
        "ann-1" "t1" exCanvasClosable
      = CanvasStage.finalizeSpec ⟨100, 100⟩ "L1" "#FF3B30" "ann-1" "t1"
          exCanvasClosable [⟨0, 0⟩, ⟨100, 0⟩, ⟨10, 10⟩] :=
  ⟨rfl, rfl,
   C6_finalize_gates ⟨100, 100⟩ [exLayer] none none "#FF3B30" "ann-1" "t1"
     exCanvasClosable [⟨0, 0⟩, ⟨100, 0⟩, ⟨10, 10⟩] exLayer rfl rfl⟩

/-- C2 amended: the points/area invariant holds for the stroke-capture
path — any shape `finalizeDraft` commits has at least 3 points and
normalized polygon area at least the minimum-area threshold — while the
load/upgrade path guarantees only that every shape entering the store has
at least 2 points (`ensureFreehandShape` keeps any sanitized freehand path
with ≥ 2 points, with no area gate; the circle conversion yields 36
points). -/
theorem C2_amended_shape_invariants :
    (∀ (imageSize : ImageSize) (layers : List AnnotationLayer)
        (aid sid : Option String) (color newId nowIso : String)
        (st : CanvasStage.CanvasState) (lid : String) (shape : AnnotationShape),
      CanvasStage.CanvasEffect.addShapeFx lid shape ∈
          (CanvasStage.finalizeDraft imageSize layers aid sid color newId
            nowIso st).2 →
        3 ≤ shape.points.length ∧
        CanvasStage.MIN_POLYGON_AREA ≤ CanvasStage.polygonArea shape.points) ∧
    (∀ (cosv sinv : ℕ → ℚ) (gen nowIso : String) (raw : RawShape)
        (docSize : ImageSize),
      2 ≤ (ensureFreehandShape cosv sinv gen nowIso raw docSize).points.length) := by
  constructor
  · intro imageSize layers aid sid color newId nowIso st lid shape hmem
    cases hd : st.draftPath with
    | none => simp [CanvasStage.finalizeDraft, hd] at hmem
    | some pts =>
      cases hl : CanvasStage.getActiveLayer layers aid sid with
      | none => simp [CanvasStage.finalizeDraft, hd, hl] at hmem
      | some layer =>
        by_cases h3 : pts.length < 3
        · simp [CanvasStage.finalizeDraft, hd, hl, h3] at hmem
        · by_cases hclose : CanvasStage.CLOSE_THRESHOLD ^ 2
              < CanvasStage.distSq (pts.head?.getD ⟨0, 0⟩)
                  (pts.getLast?.getD ⟨0, 0⟩)
          · simp [CanvasStage.finalizeDraft, hd, hl, h3, hclose] at hmem
          · by_cases harea : CanvasStage.polygonArea
                (pts.map (CanvasStage.normalize imageSize))
                < CanvasStage.MIN_POLYGON_AREA
            · simp [CanvasStage.finalizeDraft, hd, hl, h3, hclose, harea] at hmem
            · simp [CanvasStage.finalizeDraft, hd, hl, h3, hclose, harea] at hmem
              obtain ⟨-, rfl⟩ := hmem
              constructor
              · simpa using Nat.le_of_not_lt h3
              · simpa using le_of_not_lt harea
  · intro cosv sinv gen nowIso raw docSize
    unfold ensureFreehandShape
    cases ht : raw.type with
    | none =>
      simp [convertCircleToFreehand, FREEHAND_SAMPLES]
    | some t =>
      cases hp : raw.points with
      | none => simp [convertCircleToFreehand, FREEHAND_SAMPLES]
      | some pts =>
        by_cases hft : t = "freehand"
        · subst hft
          by_cases h2 : 2 ≤ (sanitizePoints pts).length
          · simp [h2]
          · simp [h2, convertCircleToFreehand, FREEHAND_SAMPLES]
        · simp [hft, convertCircleToFreehand, FREEHAND_SAMPLES]

/-- Witness for C2's amended theorem: the concrete committing capture of
`exCanvasClosable` yields a shape with 3 points and area `1/20`, and the
two-point legacy shape keeps 2 points through the upgrade. -/
theorem C2_witness :
    CanvasStage.CanvasEffect.addShapeFx "L1" exCommittedShape ∈
        (CanvasStage.finalizeDraft ⟨100, 100⟩ [exLayer] none none "#FF3B30"
          "ann-1" "t1" exCanvasClosable).2 ∧
    3 ≤ exCommittedShape.points.length ∧
    CanvasStage.MIN_POLYGON_AREA ≤
      CanvasStage.polygonArea exCommittedShape.points ∧
    2 ≤ (ensureFreehandShape (fun _ => 0) (fun _ => 0) "gen" "now"
        rawTwoPointShape ⟨100, 100⟩).points.length := by
  have hmem : CanvasStage.CanvasEffect.addShapeFx "L1" exCommittedShape ∈
      (CanvasStage.finalizeDraft ⟨100, 100⟩ [exLayer] none none "#FF3B30"
        "ann-1" "t1" exCanvasClosable).2 := by
    norm_num [CanvasStage.finalizeDraft, CanvasStage.getActiveLayer,
      CanvasStage.distSq, CanvasStage.polygonArea, CanvasStage.normalize,
      CanvasStage.CLOSE_THRESHOLD, CanvasStage.MIN_POLYGON_AREA,
      exCanvasClosable, exLayer, exShape, exCommittedShape,
      List.range_succ, min_def, max_def, abs_eq_max_neg]
  have h := C2_amended_shape_invariants
  exact ⟨hmem,
    (h.1 ⟨100, 100⟩ [exLayer] none none "#FF3B30" "ann-1" "t1"
      exCanvasClosable "L1" exCommittedShape hmem).1,
    (h.1 ⟨100, 100⟩ [exLayer] none none "#FF3B30" "ann-1" "t1"
      exCanvasClosable "L1" exCommittedShape hmem).2,
    h.2 (fun _ => 0) (fun _ => 0) "gen" "now" rawTwoPointShape ⟨100, 100⟩⟩

/-- C7: the translation clamp, per axis, for positive container sizes.  If
the scaled image is strictly smaller than the container along an axis the
result centers the image on that axis — the value `(container - scaled)/2`
does not depend on the candidate.  Otherwise the candidate is clamped into
`[container - scaled, 0]`, so the image span `[x, x + scaled]` always
covers (in particular intersects) the container interval `[0, container]`:
the image cannot be dragged fully out of view. -/
theorem C7_clamp_translation (cw ch : ℚ) (size : ImageSize) (scale : ℚ)
    (pos : PixelPoint) (hcw : 0 < cw) (hch : 0 < ch) :
    (size.w * scale < cw →
      (CanvasStage.clampStagePosition cw ch size scale pos).x
        = (cw - size.w * scale) / 2) ∧
    (cw ≤ size.w * scale →
      cw - size.w * scale ≤ (CanvasStage.clampStagePosition cw ch size scale pos).x ∧
      (CanvasStage.clampStagePosition cw ch size scale pos).x ≤ 0 ∧
      0 < (CanvasStage.clampStagePosition cw ch size scale pos).x + size.w * scale) ∧
    (size.h * scale < ch →
      (CanvasStage.clampStagePosition cw ch size scale pos).y
        = (ch - size.h * scale) / 2) ∧
    (ch ≤ size.h * scale →
      ch - size.h * scale ≤ (CanvasStage.clampStagePosition cw ch size scale pos).y ∧
      (CanvasStage.clampStagePosition cw ch size scale pos).y ≤ 0 ∧
      0 < (CanvasStage.clampStagePosition cw ch size scale pos).y + size.h * scale) := by
  have hne : ¬(cw = 0 ∨ ch = 0) := by
    push_neg
    exact ⟨ne_of_gt hcw, ne_of_gt hch⟩
  unfold CanvasStage.clampStagePosition
  rw [if_neg hne]
  dsimp only
  refine ⟨?_, ?_, ?_, ?_⟩ <;> intro h
  · rw [if_pos (by linarith : cw - size.w * scale ≥ 0)]
  · by_cases h0 : cw - size.w * scale ≥ 0
    · rw [if_pos h0]
      refine ⟨by linarith, by linarith, by linarith⟩
    · rw [if_neg h0]
      have hub : min 0 (max (cw - size.w * scale) pos.x) ≤ 0 := min_le_left _ _
      have hlb : cw - size.w * scale ≤ min 0 (max (cw - size.w * scale) pos.x) :=
        le_min (by linarith) (le_max_left _ _)
      exact ⟨hlb, hub, by linarith⟩
  · rw [if_pos (by linarith : ch - size.h * scale ≥ 0)]
  · by_cases h0 : ch - size.h * scale ≥ 0
    · rw [if_pos h0]
      refine ⟨by linarith, by linarith, by linarith⟩
    · rw [if_neg h0]
      have hub : min 0 (max (ch - size.h * scale) pos.y) ≤ 0 := min_le_left _ _
      have hlb : ch - size.h * scale ≤ min 0 (max (ch - size.h * scale) pos.y) :=
        le_min (by linarith) (le_max_left _ _)
      exact ⟨hlb, hub, by linarith⟩

/-- Witness for C7: container 800×600, image 1024×768 at scale 1, candidate
translation (−5000, 7). -/
theorem C7_witness :
    (0 : ℚ) < 800 ∧ (0 : ℚ) < 600 ∧
    ((1024 : ℚ) * 1 < 800 →
      (CanvasStage.clampStagePosition 800 600 ⟨1024, 768⟩ 1 ⟨-5000, 7⟩).x
        = (800 - 1024 * 1) / 2) ∧
    ((800 : ℚ) ≤ 1024 * 1 →
      800 - 1024 * 1 ≤ (CanvasStage.clampStagePosition 800 600 ⟨1024, 768⟩ 1 ⟨-5000, 7⟩).x ∧
      (CanvasStage.clampStagePosition 800 600 ⟨1024, 768⟩ 1 ⟨-5000, 7⟩).x ≤ 0 ∧
      0 < (CanvasStage.clampStagePosition 800 600 ⟨1024, 768⟩ 1 ⟨-5000, 7⟩).x + 1024 * 1) :=
  ⟨by norm_num, by norm_num,
   (C7_clamp_translation 800 600 ⟨1024, 768⟩ 1 ⟨-5000, 7⟩ (by norm_num)
     (by norm_num)).1,
   (C7_clamp_translation 800 600 ⟨1024, 768⟩ 1 ⟨-5000, 7⟩ (by norm_num)
     (by norm_num)).2.1⟩

/-- C8: a persisted shape tagged `type = "circle"` is never rejected at
load: `ensureFreehandShape` routes it through `convertCircleToFreehand`,
whose output has exactly 36 points — the `i`-th being the boundary sample
`circleSample` at angle `2π·i/36` (uniformly spaced, here with the
trigonometric values abstracted as `cosv`/`sinv`) — with every coordinate
clamped to `[0, 1]`, `closed = true`, and the original `id`, `color`,
`label`, `created_at` and `updated_at` preserved whenever present. -/
theorem C8_circle_upgrade (cosv sinv : ℕ → ℚ) (gen nowIso : String)
    (shape : RawShape) (docSize : ImageSize)
    (htype : shape.type = some "circle") :
    ensureFreehandShape cosv sinv gen nowIso shape docSize
      = convertCircleToFreehand cosv sinv gen nowIso shape docSize ∧
    (convertCircleToFreehand cosv sinv gen nowIso shape docSize).points.length
      = 36 ∧
    (∀ p ∈ (convertCircleToFreehand cosv sinv gen nowIso shape docSize).points,
      0 ≤ p.x ∧ p.x ≤ 1 ∧ 0 ≤ p.y ∧ p.y ≤ 1) ∧
    (∀ i, i < 36 →
      (convertCircleToFreehand cosv sinv gen nowIso shape docSize).points.getD
          i ⟨0, 0⟩
        = circleSample cosv sinv shape docSize i) ∧
    (convertCircleToFreehand cosv sinv gen nowIso shape docSize).closed = true ∧
    (∀ v, shape.id = some v →
      (convertCircleToFreehand cosv sinv gen nowIso shape docSize).id = v) ∧
    (∀ v, shape.color = some v →
      (convertCircleToFreehand cosv sinv gen nowIso shape docSize).color = v) ∧
    (convertCircleToFreehand cosv sinv gen nowIso shape docSize).label
      = shape.label ∧
    (∀ v, shape.created_at = some v →
      (convertCircleToFreehand cosv sinv gen nowIso shape docSize).created_at
        = v) ∧
    (∀ v, shape.updated_at = some v →
      (convertCircleToFreehand cosv sinv gen nowIso shape docSize).updated_at
        = v) := by
  refine ⟨?_, ?_, ?_, ?_, ?_, ?_, ?_, ?_, ?_, ?_⟩
  · unfold ensureFreehandShape
    cases hp : shape.points with
    | none => rw [htype]
    | some pts =>
      rw [htype]
      simp
  · simp [convertCircleToFreehand, FREEHAND_SAMPLES]
  · intro p hp
    simp only [convertCircleToFreehand, List.mem_map, List.mem_range] at hp
    obtain ⟨i, -, rfl⟩ := hp
    exact ⟨(clamp01_mem_unit _).1, (clamp01_mem_unit _).2,
      (clamp01_mem_unit _).1, (clamp01_mem_unit _).2⟩
  · intro i hi
    unfold convertCircleToFreehand
    simp only [FREEHAND_SAMPLES]
    rw [List.getD_eq_getElem?_getD, List.getElem?_map, List.getElem?_range hi]
    rfl
  · rfl
  · intro v hv
    simp [convertCircleToFreehand, hv]
  · intro v hv
    simp [convertCircleToFreehand, hv]
  · rfl
  · intro v hv
    simp [convertCircleToFreehand, hv]
  · intro v hv
    simp [convertCircleToFreehand, hv]

/-- Witness for C8 at the concrete legacy circle `rawCircleShape` on a
100×100 document (with `cosv = 1`, `sinv = 0` standing for the
trigonometric samples): the upgraded shape has 36 points. -/
theorem C8_witness :
    rawCircleShape.type = some "circle" ∧
    (ensureFreehandShape (fun _ => 1) (fun _ => 0) "gen" "now" rawCircleShape
        ⟨100, 100⟩).points.length = 36 := by
  have h := C8_circle_upgrade (fun _ => 1) (fun _ => 0) "gen" "now"
    rawCircleShape ⟨100, 100⟩ rfl
  exact ⟨rfl, by rw [h.1]; exact h.2.1⟩

/-- C10: a mutating store operation whose ids match nothing in the loaded
document (`updateLayer` with an unknown layer id, `updateShape`/`deleteShape`
with an unknown layer id, or with an existing layer id but an unknown shape
id) leaves the document unchanged, yet still pushes a deep snapshot of it
onto the undo stack, clears the redo stack and sets the dirty flag. -/
theorem C10_unmatched_mutation_pushes_history
    (s : AnnotationState) (d : AnnotationDocument) (hdoc : s.document = some d)
    (ghost : AnnotationLayer) (gid sid : String) (gshape : AnnotationShape)
    (hghost : ∀ l ∈ d.layers, l.id ≠ ghost.id)
    (hgid : ∀ l ∈ d.layers, l.id ≠ gid)
    (hsid : ∀ l ∈ d.layers, ∀ sh ∈ l.shapes, sh.id ≠ sid)
    (hgshape : ∀ l ∈ d.layers, ∀ sh ∈ l.shapes, sh.id ≠ gshape.id) :
    pushOnlyFrame (updateLayer s ghost) s d ∧
    pushOnlyFrame (updateShape s gid gshape) s d ∧
    pushOnlyFrame (deleteShape s gid sid) s d ∧
    (∀ l ∈ d.layers, pushOnlyFrame (updateShape s l.id gshape) s d) ∧
    (∀ l ∈ d.layers, pushOnlyFrame (deleteShape s l.id sid) s d) := by
  refine ⟨?_, ?_, ?_, ?_, ?_⟩
  · have hmap : d.layers.map (fun l => if l.id = ghost.id then ghost else l)
        = d.layers :=
      list_map_id_of_mem _ _ (fun l hl => if_neg (hghost l hl))
    simp [pushOnlyFrame, updateLayer, hdoc, hmap, cloneDocument]
  · have hmap : d.layers.map (fun layer =>
        if layer.id = gid then
          { layer with
            shapes := layer.shapes.map
              (fun sh => if sh.id = gshape.id then gshape else sh) }
        else layer) = d.layers :=
      list_map_id_of_mem _ _ (fun l hl => if_neg (hgid l hl))
    simp [pushOnlyFrame, updateShape, hdoc, hmap, cloneDocument]
  · have hmap : d.layers.map (fun layer =>
        if layer.id = gid then
          { layer with
            shapes := layer.shapes.filter (fun sh => !decide (sh.id = sid)) }
        else layer) = d.layers :=
      list_map_id_of_mem _ _ (fun l hl => if_neg (hgid l hl))
    simp [pushOnlyFrame, deleteShape, hdoc, hmap, cloneDocument]
  · intro l hl
    have hmap : d.layers.map (fun layer =>
        if layer.id = l.id then
          { layer with
            shapes := layer.shapes.map
              (fun sh => if sh.id = gshape.id then gshape else sh) }
        else layer) = d.layers := by
      refine list_map_id_of_mem _ _ (fun l' hl' => ?_)
      have hinner : l'.shapes.map
          (fun sh => if sh.id = gshape.id then gshape else sh) = l'.shapes :=
        list_map_id_of_mem _ _ (fun sh hsh => if_neg (hgshape l' hl' sh hsh))
      by_cases hc : l'.id = l.id
      · rw [if_pos hc, hinner]
      · rw [if_neg hc]
    simp [pushOnlyFrame, updateShape, hdoc, hmap, cloneDocument]
  · intro l hl
    have hmap : d.layers.map (fun layer =>
        if layer.id = l.id then
          { layer with
            shapes := layer.shapes.filter (fun sh => !decide (sh.id = sid)) }
        else layer) = d.layers := by
      refine list_map_id_of_mem _ _ (fun l' hl' => ?_)
      have hinner : l'.shapes.filter (fun sh => !decide (sh.id = sid))
          = l'.shapes := by
        rw [List.filter_eq_self]
        intro sh hsh
        simpa using hsid l' hl' sh hsh
      by_cases hc : l'.id = l.id
      · rw [if_pos hc, hinner]
      · rw [if_neg hc]
    simp [pushOnlyFrame, deleteShape, hdoc, hmap, cloneDocument]

/-- Witness for C10 at `exState`/`exDoc` with ids matching nothing
(`"LX"`, `"sX"`, `ghostLayer`, `ghostShape`) and the existing layer
`"L1"`. -/
theorem C10_witness :
    exState.document = some exDoc ∧
    pushOnlyFrame (updateLayer exState ghostLayer) exState exDoc ∧
    pushOnlyFrame (updateShape exState "LX" ghostShape) exState exDoc ∧
    pushOnlyFrame (deleteShape exState "LX" "sX") exState exDoc ∧
    pushOnlyFrame (updateShape exState "L1" ghostShape) exState exDoc ∧
    pushOnlyFrame (deleteShape exState "L1" "sX") exState exDoc := by
  have h := C10_unmatched_mutation_pushes_history exState exDoc rfl ghostLayer
    "LX" "sX" ghostShape (by decide) (by decide) (by decide) (by decide)
  exact ⟨rfl, h.1, h.2.1, h.2.2.1,
    h.2.2.2.1 exLayer (List.mem_cons_self _ _),
    h.2.2.2.2 exLayer (List.mem_cons_self _ _)⟩
